import Mathlib

set_option maxRecDepth 100000
set_option linter.unusedSectionVars false

/-!
Shallow embedding of the omgpp server core (`crates/server/src/lib.rs`).

Machine integers are modelled as `Nat` with explicit reduction modulo `2^32`
where the Rust code relies on 32-bit wrap-around (inside MD5).  The
`bimap::BiHashMap` registry is modelled as an association list together with
the crate's overwriting `insert` semantics.  User callbacks and transport
operations are side effects; the embedding records each invocation in an
explicit effect trace so that claims about "fires exactly once" become
statements about the trace.
-/

namespace Omgpp

/-! ### MD5 (the fixed hash used by `Server::generate_uuid` via the `md5` crate)

Bytes are `Nat` values `< 256`; 32-bit words are `Nat` values `< 2^32`.
-/

def pow32 : Nat := 4294967296

def not32 (x : Nat) : Nat := Nat.xor x 4294967295

def rotl32 (x s : Nat) : Nat :=
  Nat.lor ((x <<< s) % pow32) (x >>> (32 - s)) % pow32

/-- The 64 MD5 round constants `K[i] = floor(2^32 * |sin(i+1)|)` (RFC 1321). -/
def md5K : List Nat :=
  [0xd76aa478, 0xe8c7b756, 0x242070db, 0xc1bdceee,
   0xf57c0faf, 0x4787c62a, 0xa8304613, 0xfd469501,
   0x698098d8, 0x8b44f7af, 0xffff5bb1, 0x895cd7be,
   0x6b901122, 0xfd987193, 0xa679438e, 0x49b40821,
   0xf61e2562, 0xc040b340, 0x265e5a51, 0xe9b6c7aa,
   0xd62f105d, 0x02441453, 0xd8a1e681, 0xe7d3fbc8,
   0x21e1cde6, 0xc33707d6, 0xf4d50d87, 0x455a14ed,
   0xa9e3e905, 0xfcefa3f8, 0x676f02d9, 0x8d2a4c8a,
   0xfffa3942, 0x8771f681, 0x6d9d6122, 0xfde5380c,
   0xa4beea44, 0x4bdecfa9, 0xf6bb4b60, 0xbebfbc70,
   0x289b7ec6, 0xeaa127fa, 0xd4ef3085, 0x04881d05,
   0xd9d4d039, 0xe6db99e5, 0x1fa27cf8, 0xc4ac5665,
   0xf4292244, 0x432aff97, 0xab9423a7, 0xfc93a039,
   0x655b59c3, 0x8f0ccc92, 0xffeff47d, 0x85845dd1,
   0x6fa87e4f, 0xfe2ce6e0, 0xa3014314, 0x4e0811a1,
   0xf7537e82, 0xbd3af235, 0x2ad7d2bb, 0xeb86d391]

/-- The per-round left-rotation amounts (RFC 1321). -/
def md5S : List Nat :=
  [7, 12, 17, 22, 7, 12, 17, 22, 7, 12, 17, 22, 7, 12, 17, 22,
   5, 9, 14, 20, 5, 9, 14, 20, 5, 9, 14, 20, 5, 9, 14, 20,
   4, 11, 16, 23, 4, 11, 16, 23, 4, 11, 16, 23, 4, 11, 16, 23,
   6, 10, 15, 21, 6, 10, 15, 21, 6, 10, 15, 21, 6, 10, 15, 21]

structure MD5State where
  a : Nat
  b : Nat
  c : Nat
  d : Nat
deriving DecidableEq

/-- `n` little-endian bytes of `val`. -/
def leBytes (n : Nat) (val : Nat) : List Nat :=
  (List.range n).map (fun i => (val >>> (8 * i)) % 256)

/-- MD5 padding: `0x80`, zeros to 56 mod 64, then the bit length as 8 LE bytes. -/
def md5pad (msg : List Nat) : List Nat :=
  msg ++ [128] ++ List.replicate ((56 + 64 - (msg.length + 1) % 64) % 64) 0
      ++ leBytes 8 (msg.length * 8)

/-- The 16 little-endian 32-bit words of one 64-byte chunk. -/
def chunkWords (chunk : List Nat) : List Nat :=
  (List.range 16).map (fun i =>
    chunk.getD (4 * i) 0 + chunk.getD (4 * i + 1) 0 * 256 +
    chunk.getD (4 * i + 2) 0 * 65536 + chunk.getD (4 * i + 3) 0 * 16777216)

/-- One of the 64 MD5 rounds. -/
def md5round (M : List Nat) (st : MD5State) (i : Nat) : MD5State :=
  let fg : Nat × Nat :=
    if i < 16 then
      (Nat.lor (Nat.land st.b st.c) (Nat.land (not32 st.b) st.d), i)
    else if i < 32 then
      (Nat.lor (Nat.land st.d st.b) (Nat.land (not32 st.d) st.c), (5 * i + 1) % 16)
    else if i < 48 then
      (Nat.xor (Nat.xor st.b st.c) st.d, (3 * i + 5) % 16)
    else
      (Nat.xor st.c (Nat.lor st.b (not32 st.d)), (7 * i) % 16)
  let f2 : Nat := (fg.1 + st.a + md5K.getD i 0 + M.getD fg.2 0) % pow32
  { a := st.d
    b := (st.b + rotl32 f2 (md5S.getD i 0)) % pow32
    c := st.b
    d := st.c }

/-- Process one 64-byte chunk. -/
def md5block (st : MD5State) (chunk : List Nat) : MD5State :=
  let M := chunkWords chunk
  let r := (List.range 64).foldl (md5round M) st
  { a := (st.a + r.a) % pow32
    b := (st.b + r.b) % pow32
    c := (st.c + r.c) % pow32
    d := (st.d + r.d) % pow32 }

/-- Split a byte list into 64-byte chunks (fuel-driven structural recursion;
`fuel = l.length` always suffices since every step consumes at least one byte). -/
def toChunksAux : Nat → List Nat → List (List Nat)
  | 0, _ => []
  | _, [] => []
  | fuel + 1, x :: xs => ((x :: xs).take 64) :: toChunksAux fuel ((x :: xs).drop 64)

/-- Split a byte list into 64-byte chunks. -/
def toChunks (l : List Nat) : List (List Nat) :=
  toChunksAux l.length l

/-- MD5 digest of a byte list: 16 bytes. -/
def md5 (msg : List Nat) : List Nat :=
  let final := (toChunks (md5pad msg)).foldl md5block
    { a := 0x67452301, b := 0xefcdab89, c := 0x98badcfe, d := 0x10325476 }
  leBytes 4 final.a ++ leBytes 4 final.b ++ leBytes 4 final.c ++ leBytes 4 final.d

/-- Bytes of an ASCII string (the strings hashed by `generate_uuid` are
addresses and decimal port numbers, hence pure ASCII). -/
def strBytes (s : String) : List Nat := s.data.map Char.toNat

/-! ### Transport-level data model (`gns` / `gns_sys` types at the boundary) -/

/-- `uuid::Uuid` as constructed by `Uuid::from_bytes`: its 16 bytes. -/
abbrev Uuid := List Nat

/-- `GnsConnection`: an opaque transport-issued handle, only stored and compared. -/
abbrev GnsConnection := Nat

/-- `ESteamNetworkingConnectionState` from `gns_sys` (public states plus the
internal ones, so the catch-all arm has a real complement to range over). -/
inductive ESteamNetworkingConnectionState
  | k_ESteamNetworkingConnectionState_None
  | k_ESteamNetworkingConnectionState_Connecting
  | k_ESteamNetworkingConnectionState_FindingRoute
  | k_ESteamNetworkingConnectionState_Connected
  | k_ESteamNetworkingConnectionState_ClosedByPeer
  | k_ESteamNetworkingConnectionState_ProblemDetectedLocally
  | k_ESteamNetworkingConnectionState_FinWait
  | k_ESteamNetworkingConnectionState_Linger
  | k_ESteamNetworkingConnectionState_Dead
deriving DecidableEq

/-- The connection metadata (`GnsConnectionInfo`) the server reads: the new
state, and the remote endpoint as the strings/number formatted by the code. -/
structure GnsConnectionInfo where
  state : ESteamNetworkingConnectionState
  remote_address : String
  remote_port : Nat
deriving DecidableEq

/-- A polled lifecycle event (`GnsConnectionEvent`). -/
structure GnsConnectionEvent where
  old_state : ESteamNetworkingConnectionState
  info : GnsConnectionInfo
  connection : GnsConnection
deriving DecidableEq

/-- A polled inbound message (`GnsNetworkMessage<ToReceive>`): its originating
connection handle and payload bytes. -/
structure GnsNetworkMessage where
  connection : GnsConnection
  payload : List Nat
deriving DecidableEq

/-- An outbound unit handed to the transport
(`utils().allocate_message(connection, flags, data)`). -/
structure OutMsg where
  connection : GnsConnection
  flags : Int
  data : List Nat
deriving DecidableEq

/-- Steam send-flag constants from `gns_sys`. -/
def k_nSteamNetworkingSend_Unreliable : Int := 0

def k_nSteamNetworkingSend_Reliable : Int := 8

/-- The transport socket at its boundary: whether `accept` succeeds for a
handle, and whether `send_messages` reports a per-item failure
(`Either::Right(EResult)`) for an outbound unit.  The actual I/O is opaque;
only these outcomes flow back into the server code. -/
structure GnsSocket where
  accept_result : GnsConnection → Bool
  send_item_is_err : OutMsg → Bool

/-! ### The bidirectional registry (`bimap::BiHashMap`)

Modelled as an association list.  `insert` follows the bimap crate's
semantics: it *overwrites*, i.e. removes any pair sharing the left or the
right value before inserting the new pair. -/

abbrev BiHashMap (L R : Type) := List (L × R)

namespace BiHashMap

variable {L R : Type} [DecidableEq L] [DecidableEq R]

def get_by_left (m : BiHashMap L R) (l : L) : Option R :=
  (m.find? (fun p => decide (p.1 = l))).map Prod.snd

def get_by_right (m : BiHashMap L R) (r : R) : Option L :=
  (m.find? (fun p => decide (p.2 = r))).map Prod.fst

def contains_left (m : BiHashMap L R) (l : L) : Bool :=
  (get_by_left m l).isSome

def contains_right (m : BiHashMap L R) (r : R) : Bool :=
  (get_by_right m r).isSome

def remove_by_left (m : BiHashMap L R) (l : L) : BiHashMap L R :=
  m.filter (fun p => !(decide (p.1 = l)))

def insert (m : BiHashMap L R) (l : L) (r : R) : BiHashMap L R :=
  (m.filter (fun p => !(decide (p.1 = l)) && !(decide (p.2 = r)))) ++ [(l, r)]

/-- The bimap invariant: no left value and no right value occurs twice. -/
def wf (m : BiHashMap L R) : Prop :=
  m.Pairwise (fun p q => p.1 ≠ q.1 ∧ p.2 ≠ q.2)

end BiHashMap

/-! ### The server core (`crates/server/src/lib.rs`) -/

/-- `ConnectionState`, the user-facing lifecycle state passed to callbacks. -/
inductive ConnectionState
  | Disconnected
  | Disconnecting
  | Connecting
  | Connected
deriving DecidableEq

/-- `type ServerResult<T> = Result<T, String>` -/
abbrev ServerResult (T : Type) := Except String T

instance : DecidableEq (ServerResult Unit) := fun a b =>
  match a, b with
  | .ok (), .ok () => isTrue rfl
  | .error s, .error t =>
      if h : s = t then isTrue (by rw [h])
      else isFalse (fun hh => by cases hh; exact h rfl)
  | .ok _, .error _ => isFalse (fun hh => by cases hh)
  | .error _, .ok _ => isFalse (fun hh => by cases hh)

/-- One observable side effect of the server core.  Callbacks are user code
whose bodies are outside the embedding; each invocation (and each transport
instruction) is recorded as one trace element. -/
inductive Effect
  | lifecycle (u : Uuid) (s : ConnectionState)
  | connectRequest (u : Uuid) (answer : Bool)
  | acceptConn (c : GnsConnection)
  | closeConn (c : GnsConnection) (reason : Int) (msg : String) (linger : Bool)
  | message (u : Uuid) (tag : Int) (payload : List Nat)
  | sendBatch (msgs : List OutMsg)
deriving DecidableEq

/-- The callback slots.  The connect-request slot always holds a predicate
(default `|_id| true`); the two optional slots are modelled by whether a
handler is registered, since firing one is an observable effect. -/
structure ServerCallbacks where
  on_connect_requested_callback : Uuid → Bool
  on_connection_changed_callback : Bool
  on_message_callback : Bool

structure Server where
  ip : String
  port : Nat
  active_connetions : BiHashMap Uuid GnsConnection
  socket : GnsSocket
  callbacks : ServerCallbacks

/-- `Server::generate_uuid`: MD5 of `format!("{}:{}", remote_address, remote_port)`,
the 16 digest bytes taken as the `Uuid` (`Uuid::from_bytes`). -/
def Server.generate_uuid (info : GnsConnectionInfo) : Uuid :=
  let hash_str := info.remote_address ++ ":" ++ toString info.remote_port
  md5 (strBytes hash_str)

/-- Result of one `process_connection_events` call: the returned
`ServerResult`, the registry after the `&mut` update, and the effect trace. -/
structure StepOutput where
  result : ServerResult Unit
  registry : BiHashMap Uuid GnsConnection
  effects : List Effect
deriving DecidableEq

/-- `Server::process_connection_events`, arm for arm. -/
def Server.process_connection_events (event : GnsConnectionEvent) (socket : GnsSocket)
    (callbacks : ServerCallbacks) (active_connetions : BiHashMap Uuid GnsConnection) :
    StepOutput :=
  let player_uuid := Server.generate_uuid event.info
  match event.old_state, event.info.state with
  -- player tries to connect
  | .k_ESteamNetworkingConnectionState_None,
    .k_ESteamNetworkingConnectionState_Connecting =>
      let t1 := if callbacks.on_connection_changed_callback then
          [Effect.lifecycle player_uuid ConnectionState.Connecting] else []
      let should_accept := callbacks.on_connect_requested_callback player_uuid
      let t2 := t1 ++ [Effect.connectRequest player_uuid should_accept]
      if should_accept then
        if socket.accept_result event.connection then
          ⟨Except.ok (), active_connetions, t2 ++ [Effect.acceptConn event.connection]⟩
        else
          ⟨Except.error "Cannot accept the connection", active_connetions,
            t2 ++ [Effect.acceptConn event.connection]⟩
      else
        ⟨Except.ok (), active_connetions,
          t2 ++ [Effect.closeConn event.connection 0 "You are not allowed to connect" false]⟩
  -- player disconnected
  | .k_ESteamNetworkingConnectionState_Connecting,
    .k_ESteamNetworkingConnectionState_ClosedByPeer
  | .k_ESteamNetworkingConnectionState_Connecting,
    .k_ESteamNetworkingConnectionState_ProblemDetectedLocally
  | .k_ESteamNetworkingConnectionState_Connected,
    .k_ESteamNetworkingConnectionState_ClosedByPeer
  | .k_ESteamNetworkingConnectionState_Connected,
    .k_ESteamNetworkingConnectionState_ProblemDetectedLocally =>
      let reg2 := if BiHashMap.contains_left active_connetions player_uuid then
          BiHashMap.remove_by_left active_connetions player_uuid
        else active_connetions
      let t := if callbacks.on_connection_changed_callback then
          [Effect.lifecycle player_uuid ConnectionState.Disconnected] else []
      ⟨Except.ok (), reg2, t⟩
  -- player connected
  | .k_ESteamNetworkingConnectionState_Connecting,
    .k_ESteamNetworkingConnectionState_Connected =>
      let reg2 := BiHashMap.insert active_connetions player_uuid event.connection
      let t := if callbacks.on_connection_changed_callback then
          [Effect.lifecycle player_uuid ConnectionState.Connected] else []
      ⟨Except.ok (), reg2, t⟩
  | _, _ => ⟨Except.ok (), active_connetions, []⟩

/-- Result of one `process_messages` call. -/
structure MsgOutput where
  result : ServerResult Unit
  effects : List Effect
deriving DecidableEq

/-- `Server::process_messages`. -/
def Server.process_messages (event : GnsNetworkMessage)
    (tracked_connections : BiHashMap Uuid GnsConnection)
    (callbacks : ServerCallbacks) : MsgOutput :=
  match BiHashMap.get_by_right tracked_connections event.connection with
  | none => ⟨Except.error "Unknown connection", []⟩
  | some sender =>
      if callbacks.on_message_callback then
        ⟨Except.ok (), [Effect.message sender 0 event.payload]⟩
      else ⟨Except.ok (), []⟩

/-- The message half of `Server::process`: `poll_messages` calls the closure
once per polled message; each call overwrites `socket_op_result`, and polling
never stops on an error — every polled message is processed. -/
def Server.process_messages_loop (msgs : List GnsNetworkMessage)
    (tracked : BiHashMap Uuid GnsConnection) (callbacks : ServerCallbacks)
    (socket_op_result : ServerResult Unit) : MsgOutput :=
  match msgs with
  | [] => ⟨socket_op_result, []⟩
  | m :: rest =>
      let o := Server.process_messages m tracked callbacks
      let orest := Server.process_messages_loop rest tracked callbacks o.result
      ⟨orest.result, o.effects ++ orest.effects⟩

/-- The event half of `Server::process`: `poll_event` calls the closure once
per polled event, threading the registry and overwriting `socket_op_result`. -/
def Server.process_events_loop (events : List GnsConnectionEvent) (socket : GnsSocket)
    (callbacks : ServerCallbacks) (reg : BiHashMap Uuid GnsConnection)
    (socket_op_result : ServerResult Unit) : StepOutput :=
  match events with
  | [] => ⟨socket_op_result, reg, []⟩
  | e :: rest =>
      let o := Server.process_connection_events e socket callbacks reg
      let orest := Server.process_events_loop rest socket callbacks o.registry o.result
      ⟨orest.result, orest.registry, o.effects ++ orest.effects⟩

/-- `Server::process::<N>` over the lists of events and messages the two polls
deliver this cycle: all events first, then all messages. -/
def Server.process (self : Server) (events : List GnsConnectionEvent)
    (msgs : List GnsNetworkMessage) : ServerResult Unit × Server × List Effect :=
  let oe := Server.process_events_loop events self.socket self.callbacks
    self.active_connetions (Except.ok ())
  let om := Server.process_messages_loop msgs oe.registry self.callbacks oe.result
  (om.result, { self with active_connetions := oe.registry }, oe.effects ++ om.effects)

/-- `Server::send_with_flags`: one allocated message, one `send_messages`
batch of size one, error iff the transport reports `Right` for that item. -/
def Server.send_with_flags (self : Server) (connection : GnsConnection) (flags : Int)
    (data : List Nat) : ServerResult Unit × List Effect :=
  let msg : OutMsg := { connection := connection, flags := flags, data := data }
  if self.socket.send_item_is_err msg then
    (Except.error "Some error occured when sending the message", [Effect.sendBatch [msg]])
  else
    (Except.ok (), [Effect.sendBatch [msg]])

/-- `Server::send` (unreliable). -/
def Server.send (self : Server) (player : Uuid) (data : List Nat) :
    ServerResult Unit × List Effect :=
  match BiHashMap.get_by_left self.active_connetions player with
  | none => (Except.error "There is not such player to send", [])
  | some connection =>
      Server.send_with_flags self connection k_nSteamNetworkingSend_Unreliable data

/-- `Server::send_reliable`. -/
def Server.send_reliable (self : Server) (player : Uuid) (data : List Nat) :
    ServerResult Unit × List Effect :=
  match BiHashMap.get_by_left self.active_connetions player with
  | none => (Except.error "There is not such player to send", [])
  | some connection =>
      Server.send_with_flags self connection k_nSteamNetworkingSend_Reliable data

/-- `Server::broadcast_with_flags`: one outbound unit per registry entry,
submitted as a single batch when non-empty; the transport's result is bound
to `res` and discarded (`// TODO handle the send result`); always `Ok`. -/
def Server.broadcast_with_flags (self : Server) (flags : Int) (data : List Nat) :
    ServerResult Unit × List Effect :=
  let connections := self.active_connetions.map
    (fun item => ({ connection := item.2, flags := flags, data := data } : OutMsg))
  if connections.length > 0 then
    (Except.ok (), [Effect.sendBatch connections])
  else
    (Except.ok (), [])

/-- `Server::broadcast` (unreliable). -/
def Server.broadcast (self : Server) (data : List Nat) : ServerResult Unit × List Effect :=
  Server.broadcast_with_flags self k_nSteamNetworkingSend_Unreliable data

/-- `Server::broadcast_reliable`. -/
def Server.broadcast_reliable (self : Server) (data : List Nat) :
    ServerResult Unit × List Effect :=
  Server.broadcast_with_flags self k_nSteamNetworkingSend_Reliable data

/-! ### Trace classifiers and the documented-transition table -/

/-- Lifecycle-changed callback invocations. -/
def Effect.isLifecycleCb : Effect → Bool
  | .lifecycle _ _ => true
  | _ => false

/-- Connect-request policy invocations. -/
def Effect.isConnectRequest : Effect → Bool
  | .connectRequest _ _ => true
  | _ => false

/-- Transport accept instructions. -/
def Effect.isAccept : Effect → Bool
  | .acceptConn _ => true
  | _ => false

/-- Transport close instructions. -/
def Effect.isClose : Effect → Bool
  | .closeConn _ _ _ _ => true
  | _ => false

/-- Message-received callback invocations. -/
def Effect.isMessageCb : Effect → Bool
  | .message _ _ _ => true
  | _ => false

/-- Any callback invocation (one of the three user hooks). -/
def Effect.isCallback : Effect → Bool
  | .lifecycle _ _ => true
  | .connectRequest _ _ => true
  | .message _ _ _ => true
  | _ => false

/-- Any transport instruction (accept, close, or a send batch). -/
def Effect.isTransportOp : Effect → Bool
  | .acceptConn _ => true
  | .closeConn _ _ _ _ => true
  | .sendBatch _ => true
  | _ => false

/-- The (old, new) pairs matched by one of the three documented arms of
`process_connection_events`; every other pair reaches the `(_, _)` arm. -/
def matched_transition :
    ESteamNetworkingConnectionState → ESteamNetworkingConnectionState → Bool
  | .k_ESteamNetworkingConnectionState_None,
    .k_ESteamNetworkingConnectionState_Connecting => true
  | .k_ESteamNetworkingConnectionState_Connecting,
    .k_ESteamNetworkingConnectionState_ClosedByPeer => true
  | .k_ESteamNetworkingConnectionState_Connecting,
    .k_ESteamNetworkingConnectionState_ProblemDetectedLocally => true
  | .k_ESteamNetworkingConnectionState_Connected,
    .k_ESteamNetworkingConnectionState_ClosedByPeer => true
  | .k_ESteamNetworkingConnectionState_Connected,
    .k_ESteamNetworkingConnectionState_ProblemDetectedLocally => true
  | .k_ESteamNetworkingConnectionState_Connecting,
    .k_ESteamNetworkingConnectionState_Connected => true
  | _, _ => false

/-- The (old, new) pairs matched by the disconnect arm. -/
def is_disconnect_transition :
    ESteamNetworkingConnectionState → ESteamNetworkingConnectionState → Bool
  | .k_ESteamNetworkingConnectionState_Connecting,
    .k_ESteamNetworkingConnectionState_ClosedByPeer => true
  | .k_ESteamNetworkingConnectionState_Connecting,
    .k_ESteamNetworkingConnectionState_ProblemDetectedLocally => true
  | .k_ESteamNetworkingConnectionState_Connected,
    .k_ESteamNetworkingConnectionState_ClosedByPeer => true
  | .k_ESteamNetworkingConnectionState_Connected,
    .k_ESteamNetworkingConnectionState_ProblemDetectedLocally => true
  | _, _ => false

/-! ### Concrete fixtures (used to instantiate the theorems) -/

/-- Metadata of a connection from `203.0.113.5:4000` in the `Connecting` state. -/
def fixInfo : GnsConnectionInfo :=
  { state := ESteamNetworkingConnectionState.k_ESteamNetworkingConnectionState_Connecting
    remote_address := "203.0.113.5"
    remote_port := 4000 }

/-- The same endpoint reported with new state `Connected`. -/
def fixInfoConnected : GnsConnectionInfo :=
  { fixInfo with
    state := ESteamNetworkingConnectionState.k_ESteamNetworkingConnectionState_Connected }

/-- The stable identifier of endpoint `203.0.113.5:4000`. -/
def fixUuid : Uuid := Server.generate_uuid fixInfo

/-- A 16-byte identifier that is not an MD5 digest of that endpoint. -/
def zeroUuid : Uuid := List.replicate 16 0

/-- A `None -> Connecting` event for handle `9` from the fixture endpoint. -/
def fixEvConnect : GnsConnectionEvent :=
  { old_state := ESteamNetworkingConnectionState.k_ESteamNetworkingConnectionState_None
    info := fixInfo
    connection := 9 }

/-- A `Connecting -> Connected` event for handle `9` from the fixture endpoint. -/
def fixEvConnected : GnsConnectionEvent :=
  { old_state := ESteamNetworkingConnectionState.k_ESteamNetworkingConnectionState_Connecting
    info := fixInfoConnected
    connection := 9 }

/-- An undocumented transition: `Connected -> Connecting`. -/
def fixEvUnmatched : GnsConnectionEvent :=
  { old_state := ESteamNetworkingConnectionState.k_ESteamNetworkingConnectionState_Connected
    info := fixInfo
    connection := 9 }

/-- Callbacks: all three slots registered, policy accepts everyone. -/
def fixCallbacks : ServerCallbacks :=
  { on_connect_requested_callback := fun _ => true
    on_connection_changed_callback := true
    on_message_callback := true }

/-- Callbacks: all three slots registered, policy rejects everyone. -/
def fixCallbacksReject : ServerCallbacks :=
  { fixCallbacks with on_connect_requested_callback := fun _ => false }

/-- A transport whose accepts succeed and whose sends never fail. -/
def fixSocket : GnsSocket :=
  { accept_result := fun _ => true
    send_item_is_err := fun _ => false }

/-- A server whose registry maps the fixture identifier to handle `7`. -/
def fixServer : Server :=
  { ip := "127.0.0.1"
    port := 55655
    active_connetions := [(fixUuid, 7)]
    socket := fixSocket
    callbacks := fixCallbacks }

/-- The same server with an empty registry. -/
def fixServerEmpty : Server := { fixServer with active_connetions := [] }

/-- A sample payload. -/
def fixPayload : List Nat := [104, 101, 108, 108, 111]

/-! ## Theorems -/

/-- Sanity: the RFC 1321 test vector for the empty message. -/
theorem md5_rfc_vector_empty :
    md5 [] = [0xd4, 0x1d, 0x8c, 0xd9, 0x8f, 0x00, 0xb2, 0x04,
              0xe9, 0x80, 0x09, 0x98, 0xec, 0xf8, 0x42, 0x7e] := by decide

/-- Sanity: the RFC 1321 test vector for the message `abc`. -/
theorem md5_rfc_vector_abc :
    md5 (strBytes "abc") = [0x90, 0x01, 0x50, 0x98, 0x3c, 0xd2, 0x4f, 0xb0,
                            0xd6, 0x96, 0x3f, 0x7d, 0x28, 0xe1, 0x7f, 0x72] := by decide

/-- An MD5 digest always has 16 bytes. -/
theorem md5_length (msg : List Nat) : (md5 msg).length = 16 := by
  simp [md5, leBytes]

/-! ### Helper lemmas about the registry model -/

/-- Filtering away only elements that cannot satisfy `p` leaves `find? p`
unchanged. -/
theorem find?_filter_keep {α : Type} (p q : α → Bool) (l : List α)
    (h : ∀ a ∈ l, p a = true → q a = true) : (l.filter q).find? p = l.find? p := by
  induction l with
  | nil => rfl
  | cons a t ih =>
    by_cases hq : q a = true
    · rw [List.filter_cons_of_pos hq]
      by_cases hp : p a = true
      · rw [List.find?_cons_of_pos _ hp, List.find?_cons_of_pos _ hp]
      · rw [List.find?_cons_of_neg _ hp, List.find?_cons_of_neg _ hp]
        exact ih fun x hx hpx => h x (List.mem_cons_of_mem a hx) hpx
    · have hp : ¬p a = true := fun hpa => hq (h a (List.mem_cons_self a t) hpa)
      rw [List.filter_cons_of_neg hq, List.find?_cons_of_neg _ hp]
      exact ih fun x hx hpx => h x (List.mem_cons_of_mem a hx) hpx

namespace BiHashMap

theorem wfRel_symm {L R : Type} : Symmetric (fun p q : L × R => p.1 ≠ q.1 ∧ p.2 ≠ q.2) :=
  fun _ _ hab => ⟨fun he => hab.1 he.symm, fun he => hab.2 he.symm⟩

variable {L R : Type} [DecidableEq L] [DecidableEq R]

/-- Under the bimap invariant, two entries with the same left value coincide. -/
theorem eq_of_mem_wf_left {m : BiHashMap L R} (hwf : wf m) {p q : L × R}
    (hp : p ∈ m) (hq : q ∈ m) (h1 : p.1 = q.1) : p = q := by
  by_cases hpq : p = q
  · exact hpq
  · exact absurd h1 ((List.Pairwise.forall wfRel_symm hwf hp hq hpq).1)

/-- Under the bimap invariant, two entries with the same right value coincide. -/
theorem eq_of_mem_wf_right {m : BiHashMap L R} (hwf : wf m) {p q : L × R}
    (hp : p ∈ m) (hq : q ∈ m) (h2 : p.2 = q.2) : p = q := by
  by_cases hpq : p = q
  · exact hpq
  · exact absurd h2 ((List.Pairwise.forall wfRel_symm hwf hp hq hpq).2)

/-- Under the bimap invariant, a member pair is what `find?` by left returns. -/
theorem find?_left_of_mem_wf {m : BiHashMap L R} {u : L} {c : R}
    (hwf : wf m) (hmem : (u, c) ∈ m) :
    m.find? (fun p => decide (p.1 = u)) = some (u, c) := by
  induction m with
  | nil => cases hmem
  | cons a t ih =>
    rcases List.mem_cons.mp hmem with h | h
    · rw [← h]
      exact List.find?_cons_of_pos _ (by simp)
    · have hw := List.pairwise_cons.mp hwf
      have hne : ¬((fun p : L × R => decide (p.1 = u)) a = true) := by
        simp only [decide_eq_true_eq]
        exact fun he => absurd he (hw.1 (u, c) h).1
      have hred : List.find? (fun p : L × R => decide (p.1 = u)) (a :: t) =
          List.find? (fun p : L × R => decide (p.1 = u)) t :=
        List.find?_cons_of_neg t hne
      rw [hred]
      exact ih hw.2 h

/-- Under the bimap invariant, a member pair is what `find?` by right returns. -/
theorem find?_right_of_mem_wf {m : BiHashMap L R} {u : L} {c : R}
    (hwf : wf m) (hmem : (u, c) ∈ m) :
    m.find? (fun p => decide (p.2 = c)) = some (u, c) := by
  induction m with
  | nil => cases hmem
  | cons a t ih =>
    rcases List.mem_cons.mp hmem with h | h
    · rw [← h]
      exact List.find?_cons_of_pos _ (by simp)
    · have hw := List.pairwise_cons.mp hwf
      have hne : ¬((fun p : L × R => decide (p.2 = c)) a = true) := by
        simp only [decide_eq_true_eq]
        exact fun he => absurd he (hw.1 (u, c) h).2
      have hred : List.find? (fun p : L × R => decide (p.2 = c)) (a :: t) =
          List.find? (fun p : L × R => decide (p.2 = c)) t :=
        List.find?_cons_of_neg t hne
      rw [hred]
      exact ih hw.2 h

/-- Re-inserting a pair that is already present does not change any
left-lookup (the bimap overwrite removes and re-adds exactly that pair). -/
theorem get_by_left_insert_of_mem {m : BiHashMap L R} {u : L} {c : R}
    (hwf : wf m) (hmem : (u, c) ∈ m) (x : L) :
    get_by_left (insert m u c) x = get_by_left m x := by
  unfold get_by_left insert
  rw [List.find?_append]
  by_cases hx : x = u
  · subst hx
    have h1 : (m.filter fun p => !decide (p.1 = x) && !decide (p.2 = c)).find?
        (fun p => decide (p.1 = x)) = none := by
      rw [List.find?_eq_none]
      intro a ha hpa
      have hmf := (List.mem_filter.mp ha).2
      simp only [Bool.and_eq_true, Bool.not_eq_true', decide_eq_false_iff_not] at hmf
      simp only [decide_eq_true_eq] at hpa
      exact hmf.1 hpa
    rw [h1, find?_left_of_mem_wf hwf hmem]
    simp [List.find?]
  · have h2 : List.find? (fun p : L × R => decide (p.1 = x)) [(u, c)] = none := by
      have : ¬((u : L) = x) := fun he => hx he.symm
      simp [List.find?, this]
    rw [h2, Option.or_none]
    have h3 : (m.filter fun p => !decide (p.1 = u) && !decide (p.2 = c)).find?
        (fun p => decide (p.1 = x)) = m.find? (fun p => decide (p.1 = x)) := by
      apply find?_filter_keep
      intro a ha hpa
      simp only [decide_eq_true_eq] at hpa
      simp only [Bool.and_eq_true, Bool.not_eq_true', decide_eq_false_iff_not]
      constructor
      · exact fun h1 => hx (hpa.symm.trans h1)
      · intro h2c
        have ha2 : a = (u, c) := eq_of_mem_wf_right hwf ha hmem h2c
        exact hx (hpa.symm.trans (by rw [ha2]))
    rw [h3]

/-- Re-inserting a pair that is already present does not change any
right-lookup. -/
theorem get_by_right_insert_of_mem {m : BiHashMap L R} {u : L} {c : R}
    (hwf : wf m) (hmem : (u, c) ∈ m) (y : R) :
    get_by_right (insert m u c) y = get_by_right m y := by
  unfold get_by_right insert
  rw [List.find?_append]
  by_cases hy : y = c
  · subst hy
    have h1 : (m.filter fun p => !decide (p.1 = u) && !decide (p.2 = y)).find?
        (fun p => decide (p.2 = y)) = none := by
      rw [List.find?_eq_none]
      intro a ha hpa
      have hmf := (List.mem_filter.mp ha).2
      simp only [Bool.and_eq_true, Bool.not_eq_true', decide_eq_false_iff_not] at hmf
      simp only [decide_eq_true_eq] at hpa
      exact hmf.2 hpa
    rw [h1, find?_right_of_mem_wf hwf hmem]
    simp [List.find?]
  · have h2 : List.find? (fun p : L × R => decide (p.2 = y)) [(u, c)] = none := by
      have : ¬((c : R) = y) := fun he => hy he.symm
      simp [List.find?, this]
    rw [h2, Option.or_none]
    have h3 : (m.filter fun p => !decide (p.1 = u) && !decide (p.2 = c)).find?
        (fun p => decide (p.2 = y)) = m.find? (fun p => decide (p.2 = y)) := by
      apply find?_filter_keep
      intro a ha hpa
      simp only [decide_eq_true_eq] at hpa
      simp only [Bool.and_eq_true, Bool.not_eq_true', decide_eq_false_iff_not]
      constructor
      · intro h1
        have ha2 : a = (u, c) := eq_of_mem_wf_left hwf ha hmem h1
        exact hy (hpa.symm.trans (by rw [ha2]))
      · exact fun h2c => hy (hpa.symm.trans h2c)
    rw [h3]

/-- If the left value is absent, every entry has a different left value. -/
theorem not_mem_left_of_contains_false {m : BiHashMap L R} {u : L}
    (h : contains_left m u = false) : ∀ a ∈ m, a.1 ≠ u := by
  intro a ha
  unfold contains_left get_by_left at h
  rcases hf : m.find? (fun p => decide (p.1 = u)) with _ | v
  · have := List.find?_eq_none.mp hf a ha
    simpa using this
  · rw [hf] at h
    simp at h

/-- If the right value is absent, every entry has a different right value. -/
theorem not_mem_right_of_contains_false {m : BiHashMap L R} {c : R}
    (h : contains_right m c = false) : ∀ a ∈ m, a.2 ≠ c := by
  intro a ha
  unfold contains_right get_by_right at h
  rcases hf : m.find? (fun p => decide (p.2 = c)) with _ | v
  · have := List.find?_eq_none.mp hf a ha
    simpa using this
  · rw [hf] at h
    simp at h

/-- When neither side is present, the overwriting insert is a plain append. -/
theorem insert_append_of_not_contains {m : BiHashMap L R} {u : L} {c : R}
    (hl : contains_left m u = false) (hr : contains_right m c = false) :
    insert m u c = m ++ [(u, c)] := by
  unfold insert
  congr 1
  rw [List.filter_eq_self]
  intro a ha
  simp only [Bool.and_eq_true, Bool.not_eq_true', decide_eq_false_iff_not]
  exact ⟨not_mem_left_of_contains_false hl a ha, not_mem_right_of_contains_false hr a ha⟩

end BiHashMap

/-! ### Branch characterizations of `process_connection_events` -/

/-- The catch-all arm: any pair outside the documented table is a no-op. -/
theorem pce_catch_all (ev : GnsConnectionEvent) (socket : GnsSocket)
    (cbs : ServerCallbacks) (reg : BiHashMap Uuid GnsConnection)
    (h : matched_transition ev.old_state ev.info.state = false) :
    Server.process_connection_events ev socket cbs reg = ⟨Except.ok (), reg, []⟩ := by
  obtain ⟨o, ⟨st, addr, port⟩, c⟩ := ev
  cases o <;> cases st <;> first
    | rfl
    | simp [matched_transition] at h

/-- The `(Connecting, Connected)` arm: overwriting insert, then the
`Connected` lifecycle callback if one is registered. -/
theorem pce_connected_branch (ev : GnsConnectionEvent) (socket : GnsSocket)
    (cbs : ServerCallbacks) (reg : BiHashMap Uuid GnsConnection)
    (ho : ev.old_state =
      ESteamNetworkingConnectionState.k_ESteamNetworkingConnectionState_Connecting)
    (hn : ev.info.state =
      ESteamNetworkingConnectionState.k_ESteamNetworkingConnectionState_Connected) :
    Server.process_connection_events ev socket cbs reg =
      ⟨Except.ok (),
       BiHashMap.insert reg (Server.generate_uuid ev.info) ev.connection,
       if cbs.on_connection_changed_callback then
         [Effect.lifecycle (Server.generate_uuid ev.info) ConnectionState.Connected]
       else []⟩ := by
  obtain ⟨o, ⟨st, addr, port⟩, c⟩ := ev
  simp only at ho hn
  subst ho
  subst hn
  rfl

/-- The disconnect arm: conditional removal, then the `Disconnected`
lifecycle callback if one is registered. -/
theorem pce_disconnect_branch (ev : GnsConnectionEvent) (socket : GnsSocket)
    (cbs : ServerCallbacks) (reg : BiHashMap Uuid GnsConnection)
    (h : is_disconnect_transition ev.old_state ev.info.state = true) :
    Server.process_connection_events ev socket cbs reg =
      ⟨Except.ok (),
       if BiHashMap.contains_left reg (Server.generate_uuid ev.info) then
         BiHashMap.remove_by_left reg (Server.generate_uuid ev.info)
       else reg,
       if cbs.on_connection_changed_callback then
         [Effect.lifecycle (Server.generate_uuid ev.info) ConnectionState.Disconnected]
       else []⟩ := by
  obtain ⟨o, ⟨st, addr, port⟩, c⟩ := ev
  cases o <;> cases st <;> first
    | rfl
    | simp [is_disconnect_transition] at h

/-- The `(None, Connecting)` arm: the registry is untouched; the trace is the
`Connecting` lifecycle callback (if registered), the policy invocation, then
the single accept or close instruction; the result is an error only when the
transport refuses the accept. -/
theorem pce_connect_branch (ev : GnsConnectionEvent) (socket : GnsSocket)
    (cbs : ServerCallbacks) (reg : BiHashMap Uuid GnsConnection)
    (ho : ev.old_state =
      ESteamNetworkingConnectionState.k_ESteamNetworkingConnectionState_None)
    (hn : ev.info.state =
      ESteamNetworkingConnectionState.k_ESteamNetworkingConnectionState_Connecting) :
    Server.process_connection_events ev socket cbs reg =
      ⟨(if cbs.on_connect_requested_callback (Server.generate_uuid ev.info) then
          (if socket.accept_result ev.connection then Except.ok ()
           else Except.error "Cannot accept the connection")
        else Except.ok ()),
       reg,
       (if cbs.on_connection_changed_callback then
          [Effect.lifecycle (Server.generate_uuid ev.info) ConnectionState.Connecting]
        else []) ++
         [Effect.connectRequest (Server.generate_uuid ev.info)
           (cbs.on_connect_requested_callback (Server.generate_uuid ev.info))] ++
         (if cbs.on_connect_requested_callback (Server.generate_uuid ev.info) then
            [Effect.acceptConn ev.connection]
          else
            [Effect.closeConn ev.connection 0 "You are not allowed to connect" false])⟩ := by
  obtain ⟨o, ⟨st, addr, port⟩, c⟩ := ev
  simp only at ho hn
  subst ho
  subst hn
  cases hans : cbs.on_connect_requested_callback
      (Server.generate_uuid ⟨.k_ESteamNetworkingConnectionState_Connecting, addr, port⟩) <;>
    cases hacc : socket.accept_result c <;>
      simp [Server.process_connection_events, hans, hacc]

/-- C1: `generate_uuid` is the 128-bit (16-byte) MD5 digest of the string
`"a:p"` built from the metadata's remote address and remote port; it is a
pure total function of those two fields, so metadata with equal endpoint
yields the identical identifier (the state field is irrelevant). -/
theorem generate_uuid_md5_of_endpoint (i1 i2 : GnsConnectionInfo)
    (ha : i1.remote_address = i2.remote_address)
    (hp : i1.remote_port = i2.remote_port) :
    Server.generate_uuid i1 =
        md5 (strBytes (i1.remote_address ++ ":" ++ toString i1.remote_port)) ∧
      (Server.generate_uuid i1).length = 16 ∧
      Server.generate_uuid i1 = Server.generate_uuid i2 := by
  refine ⟨rfl, md5_length _, ?_⟩
  simp only [Server.generate_uuid, ha, hp]

/-- Witness for C1 at the endpoint `203.0.113.5:4000`, reported once as
`Connecting` and once as `Connected`. -/
theorem generate_uuid_md5_of_endpoint_witness :
    fixInfo.remote_address = fixInfoConnected.remote_address ∧
    fixInfo.remote_port = fixInfoConnected.remote_port ∧
    (Server.generate_uuid fixInfo =
        md5 (strBytes (fixInfo.remote_address ++ ":" ++ toString fixInfo.remote_port)) ∧
      (Server.generate_uuid fixInfo).length = 16 ∧
      Server.generate_uuid fixInfo = Server.generate_uuid fixInfoConnected) :=
  ⟨rfl, rfl, generate_uuid_md5_of_endpoint fixInfo fixInfoConnected rfl rfl⟩

/-- C4: an event whose (old, new) pair matches none of the three documented
transition groups runs the catch-all arm: the registry is returned untouched,
the effect trace is empty (no callback, no transport operation), and the
result is success. -/
theorem unmatched_transition_noop (ev : GnsConnectionEvent) (socket : GnsSocket)
    (cbs : ServerCallbacks) (reg : BiHashMap Uuid GnsConnection)
    (h : matched_transition ev.old_state ev.info.state = false) :
    Server.process_connection_events ev socket cbs reg = ⟨Except.ok (), reg, []⟩ :=
  pce_catch_all ev socket cbs reg h

/-- Witness for C4 at the undocumented pair `Connected -> Connecting`. -/
theorem unmatched_transition_noop_witness :
    matched_transition fixEvUnmatched.old_state fixEvUnmatched.info.state = false ∧
    Server.process_connection_events fixEvUnmatched fixSocket fixCallbacks [(fixUuid, 7)] =
      ⟨Except.ok (), [(fixUuid, 7)], []⟩ :=
  ⟨by decide,
   unmatched_transition_noop fixEvUnmatched fixSocket fixCallbacks [(fixUuid, 7)] (by decide)⟩

/-- C6: a polled message whose handle has no registry entry yields the
per-item result `Err "Unknown connection"` with no effect at all (in
particular the message-received callback is not invoked), and the polling
loop carries on: processing the batch `m :: rest` equals processing `rest`
with that per-item error as the running result — every remaining message is
still processed, and a later item's result overwrites the error, so the
condition is non-fatal to the cycle. -/
theorem unknown_connection_message_nonfatal (m : GnsNetworkMessage)
    (rest : List GnsNetworkMessage) (tracked : BiHashMap Uuid GnsConnection)
    (cbs : ServerCallbacks) (r0 : ServerResult Unit)
    (h : BiHashMap.get_by_right tracked m.connection = none) :
    Server.process_messages m tracked cbs = ⟨Except.error "Unknown connection", []⟩ ∧
    Server.process_messages_loop (m :: rest) tracked cbs r0 =
      Server.process_messages_loop rest tracked cbs (Except.error "Unknown connection") := by
  constructor
  · simp [Server.process_messages, h]
  · simp [Server.process_messages_loop, Server.process_messages, h]

/-- Witness for C6: handle `99` is unknown to the fixture registry; the
following message for the known handle `7` is still processed. -/
theorem unknown_connection_message_nonfatal_witness :
    BiHashMap.get_by_right fixServer.active_connetions (99 : GnsConnection) = none ∧
    (Server.process_messages ⟨99, fixPayload⟩ fixServer.active_connetions fixCallbacks =
        ⟨Except.error "Unknown connection", []⟩ ∧
      Server.process_messages_loop [⟨99, fixPayload⟩, ⟨7, fixPayload⟩]
          fixServer.active_connetions fixCallbacks (Except.ok ()) =
        Server.process_messages_loop [⟨7, fixPayload⟩]
          fixServer.active_connetions fixCallbacks (Except.error "Unknown connection")) :=
  ⟨by decide,
   unknown_connection_message_nonfatal ⟨99, fixPayload⟩ [⟨7, fixPayload⟩]
     fixServer.active_connetions fixCallbacks (Except.ok ()) (by decide)⟩

/-- C7: for an identifier absent from the registry, `send` and
`send_reliable` return the unknown-recipient error with an empty effect
trace (nothing reaches the transport; the functions take `&self`, so no
server state changes — the model returns no modified server).  For a present
identifier they submit exactly one outbound unit carrying the requested
reliability flag (`0` unreliable, `8` reliable) and succeed iff the
transport does not report a per-item failure for that unit. -/
theorem send_unknown_and_known_spec (s : Server) (u : Uuid) (d : List Nat) :
    (BiHashMap.get_by_left s.active_connetions u = none →
      Server.send s u d = (Except.error "There is not such player to send", []) ∧
      Server.send_reliable s u d = (Except.error "There is not such player to send", [])) ∧
    (∀ c, BiHashMap.get_by_left s.active_connetions u = some c →
      ((Server.send s u d).2 =
          [Effect.sendBatch [⟨c, k_nSteamNetworkingSend_Unreliable, d⟩]] ∧
        ((Server.send s u d).1 = Except.ok () ↔
          s.socket.send_item_is_err ⟨c, k_nSteamNetworkingSend_Unreliable, d⟩ = false)) ∧
      ((Server.send_reliable s u d).2 =
          [Effect.sendBatch [⟨c, k_nSteamNetworkingSend_Reliable, d⟩]] ∧
        ((Server.send_reliable s u d).1 = Except.ok () ↔
          s.socket.send_item_is_err ⟨c, k_nSteamNetworkingSend_Reliable, d⟩ = false))) := by
  constructor
  · intro h
    constructor <;> simp [Server.send, Server.send_reliable, h]
  · intro c h
    constructor <;>
      · constructor
        · simp [Server.send, Server.send_reliable, Server.send_with_flags, h]
          split <;> rfl
        · simp [Server.send, Server.send_reliable, Server.send_with_flags, h]
          cases he : s.socket.send_item_is_err ⟨c, _, d⟩ <;> simp [he]

/-- Witness for C7: the all-zero identifier is unknown to the fixture
registry, the fixture identifier resolves to handle `7`. -/
theorem send_unknown_and_known_spec_witness :
    BiHashMap.get_by_left fixServer.active_connetions zeroUuid = none ∧
    Server.send fixServer zeroUuid fixPayload =
      (Except.error "There is not such player to send", []) ∧
    BiHashMap.get_by_left fixServer.active_connetions fixUuid = some 7 ∧
    (Server.send fixServer fixUuid fixPayload).2 =
      [Effect.sendBatch [⟨7, k_nSteamNetworkingSend_Unreliable, fixPayload⟩]] :=
  ⟨by decide,
   ((send_unknown_and_known_spec fixServer zeroUuid fixPayload).1 (by decide)).1,
   by decide,
   (((send_unknown_and_known_spec fixServer fixUuid fixPayload).2 7 (by decide)).1).1⟩

/-- C8: with an empty registry, `broadcast`, `broadcast_reliable` and
`broadcast_with_flags` perform zero transport sends and return success; with
a non-empty registry they submit a single batch holding exactly one outbound
unit per registry entry (and still return success). -/
theorem broadcast_batch_spec (s : Server) (flags : Int) (d : List Nat) :
    (s.active_connetions = [] →
      Server.broadcast s d = (Except.ok (), []) ∧
      Server.broadcast_reliable s d = (Except.ok (), []) ∧
      Server.broadcast_with_flags s flags d = (Except.ok (), [])) ∧
    (s.active_connetions ≠ [] →
      Server.broadcast_with_flags s flags d =
        (Except.ok (),
          [Effect.sendBatch (s.active_connetions.map
            (fun item => ⟨item.2, flags, d⟩))]) ∧
      (s.active_connetions.map
        (fun item => (⟨item.2, flags, d⟩ : OutMsg))).length = s.active_connetions.length) := by
  constructor
  · intro h
    refine ⟨?_, ?_, ?_⟩ <;>
      simp [Server.broadcast, Server.broadcast_reliable, Server.broadcast_with_flags, h]
  · intro h
    refine ⟨?_, List.length_map _ _⟩
    have hlen : 0 < (s.active_connetions.map
        (fun item => (⟨item.2, flags, d⟩ : OutMsg))).length := by
      rw [List.length_map]
      exact List.length_pos.mpr h
    simp [Server.broadcast_with_flags, hlen]
    exact h

/-- Witness for C8 on the empty fixture registry and the one-entry fixture
registry. -/
theorem broadcast_batch_spec_witness :
    fixServerEmpty.active_connetions = ([] : BiHashMap Uuid GnsConnection) ∧
    Server.broadcast fixServerEmpty fixPayload = (Except.ok (), []) ∧
    fixServer.active_connetions ≠ ([] : BiHashMap Uuid GnsConnection) ∧
    Server.broadcast_with_flags fixServer 0 fixPayload =
      (Except.ok (),
        [Effect.sendBatch (fixServer.active_connetions.map
          (fun item => ⟨item.2, 0, fixPayload⟩))]) :=
  ⟨rfl,
   ((broadcast_batch_spec fixServerEmpty 0 fixPayload).1 rfl).1,
   by decide,
   ((broadcast_batch_spec fixServer 0 fixPayload).2 (by decide)).1⟩

/-- C9: whenever the message-received callback is invoked by
`process_messages`, its type-tag argument is the literal `0`, whatever the
payload, sender and message are. -/
theorem message_callback_tag_zero (m : GnsNetworkMessage)
    (tracked : BiHashMap Uuid GnsConnection) (cbs : ServerCallbacks)
    (u : Uuid) (tag : Int) (payload : List Nat)
    (h : Effect.message u tag payload ∈ (Server.process_messages m tracked cbs).effects) :
    tag = 0 := by
  rcases hg : BiHashMap.get_by_right tracked m.connection with _ | sender
  · simp [Server.process_messages, hg] at h
  · cases hcb : cbs.on_message_callback
    · simp [Server.process_messages, hg, hcb] at h
    · simp [Server.process_messages, hg, hcb] at h
      exact h.2.1

/-- Witness for C9: a dispatched fixture message produces a callback whose
tag is `0`. -/
theorem message_callback_tag_zero_witness :
    Effect.message fixUuid 0 fixPayload ∈
      (Server.process_messages ⟨7, fixPayload⟩ fixServer.active_connetions
        fixCallbacks).effects ∧
    (0 : Int) = 0 :=
  ⟨by decide,
   message_callback_tag_zero ⟨7, fixPayload⟩ fixServer.active_connetions fixCallbacks
     fixUuid 0 fixPayload (by decide)⟩

/-- C10: the result of `broadcast` / `broadcast_reliable` /
`broadcast_with_flags` is `Ok` for every server, so also for every per-item
outcome the transport could report: the value returned by `send_messages` is
bound to `res` and discarded, hence a caller can never observe a broadcast
send failure through the return value. -/
theorem broadcast_result_always_ok (s : Server) (flags : Int) (d : List Nat) :
    (Server.broadcast s d).1 = Except.ok () ∧
    (Server.broadcast_reliable s d).1 = Except.ok () ∧
    (Server.broadcast_with_flags s flags d).1 = Except.ok () := by
  refine ⟨?_, ?_, ?_⟩ <;>
    · simp only [Server.broadcast, Server.broadcast_reliable, Server.broadcast_with_flags]
      split <;> rfl

/-- Counterexample to C2 as stated: the registry holds `(fixUuid, 7)` — an
entry for the computed identifier — and `(zeroUuid, 9)` — an entry for the
event's handle; processing `(Connecting, Connected)` for that identifier and
handle does not refuse the insertion: `BiHashMap::insert` silently removes
both conflicting entries and installs the new pair. -/
theorem connected_insert_overwrites_cex :
    (Server.process_connection_events fixEvConnected fixSocket fixCallbacks
        [(fixUuid, 7), (zeroUuid, 9)]).registry = [(fixUuid, 9)] ∧
    BiHashMap.get_by_left
      (Server.process_connection_events fixEvConnected fixSocket fixCallbacks
        [(fixUuid, 7), (zeroUuid, 9)]).registry fixUuid = some 9 := by
  constructor
  · decide
  · decide

/-- C2 (amended): on a `(Connecting, Connected)` event the pair (identifier,
handle) is inserted with the bimap's overwrite semantics — any existing entry
with the same identifier or the same handle is silently removed, the
insertion is never refused — and only when neither side is already present is
it a plain append; the result is success and the `Connected` lifecycle
callback fires iff one is registered. -/
theorem connected_transition_insert_overwrite (ev : GnsConnectionEvent)
    (socket : GnsSocket) (cbs : ServerCallbacks) (reg : BiHashMap Uuid GnsConnection)
    (ho : ev.old_state =
      ESteamNetworkingConnectionState.k_ESteamNetworkingConnectionState_Connecting)
    (hn : ev.info.state =
      ESteamNetworkingConnectionState.k_ESteamNetworkingConnectionState_Connected) :
    (Server.process_connection_events ev socket cbs reg).result = Except.ok () ∧
    (Server.process_connection_events ev socket cbs reg).registry =
      BiHashMap.insert reg (Server.generate_uuid ev.info) ev.connection ∧
    (Server.process_connection_events ev socket cbs reg).effects =
      (if cbs.on_connection_changed_callback then
        [Effect.lifecycle (Server.generate_uuid ev.info) ConnectionState.Connected]
       else []) ∧
    (BiHashMap.contains_left reg (Server.generate_uuid ev.info) = false →
      BiHashMap.contains_right reg ev.connection = false →
      (Server.process_connection_events ev socket cbs reg).registry =
        reg ++ [(Server.generate_uuid ev.info, ev.connection)]) := by
  have hb := pce_connected_branch ev socket cbs reg ho hn
  rw [hb]
  refine ⟨rfl, rfl, rfl, ?_⟩
  intro hl hr
  exact BiHashMap.insert_append_of_not_contains hl hr

/-- Witness for C2 (amended) on a registry where neither side is present. -/
theorem connected_transition_insert_overwrite_witness :
    fixEvConnected.old_state =
      ESteamNetworkingConnectionState.k_ESteamNetworkingConnectionState_Connecting ∧
    fixEvConnected.info.state =
      ESteamNetworkingConnectionState.k_ESteamNetworkingConnectionState_Connected ∧
    ((Server.process_connection_events fixEvConnected fixSocket fixCallbacks
        [(zeroUuid, 3)]).result = Except.ok () ∧
      (Server.process_connection_events fixEvConnected fixSocket fixCallbacks
        [(zeroUuid, 3)]).registry =
        BiHashMap.insert [(zeroUuid, 3)] (Server.generate_uuid fixEvConnected.info)
          fixEvConnected.connection ∧
      (Server.process_connection_events fixEvConnected fixSocket fixCallbacks
        [(zeroUuid, 3)]).effects =
        (if fixCallbacks.on_connection_changed_callback then
          [Effect.lifecycle (Server.generate_uuid fixEvConnected.info)
            ConnectionState.Connected]
         else []) ∧
      (BiHashMap.contains_left [(zeroUuid, 3)]
          (Server.generate_uuid fixEvConnected.info) = false →
        BiHashMap.contains_right [(zeroUuid, 3)] fixEvConnected.connection = false →
        (Server.process_connection_events fixEvConnected fixSocket fixCallbacks
          [(zeroUuid, 3)]).registry =
          [(zeroUuid, 3)] ++
            [(Server.generate_uuid fixEvConnected.info, fixEvConnected.connection)])) :=
  ⟨rfl, rfl,
   connected_transition_insert_overwrite fixEvConnected fixSocket fixCallbacks
     [(zeroUuid, 3)] rfl rfl⟩

/-- Counterexample to C3 as stated: the connect-request policy returns false,
yet the registry — which already held an entry for the computed identifier,
as after an earlier accepted connection of the same endpoint — still contains
an entry for that identifier afterwards: the rejection path never touches the
registry. -/
theorem reject_path_registry_cex :
    fixCallbacksReject.on_connect_requested_callback
      (Server.generate_uuid fixEvConnect.info) = false ∧
    BiHashMap.contains_left
      (Server.process_connection_events fixEvConnect fixSocket fixCallbacksReject
        [(fixUuid, 7)]).registry fixUuid = true := by
  constructor
  · rfl
  · decide

/-- C3 (amended): on a `(None, Connecting)` event the identifier is computed,
the `Connecting` lifecycle callback fires (iff registered), then the policy
is invoked exactly once; if it returns true the transport receives exactly
one accept instruction and no close; if it returns false the transport
receives exactly one close instruction with reason `0`, message
`"You are not allowed to connect"` and no linger, no accept — and the
registry is left unchanged, so it contains an entry for the identifier
afterwards exactly when it did before (in particular none, when none existed
before). -/
theorem connect_request_branch_spec (ev : GnsConnectionEvent) (socket : GnsSocket)
    (cbs : ServerCallbacks) (reg : BiHashMap Uuid GnsConnection)
    (ho : ev.old_state =
      ESteamNetworkingConnectionState.k_ESteamNetworkingConnectionState_None)
    (hn : ev.info.state =
      ESteamNetworkingConnectionState.k_ESteamNetworkingConnectionState_Connecting) :
    (Server.process_connection_events ev socket cbs reg).registry = reg ∧
    (Server.process_connection_events ev socket cbs reg).effects =
      (if cbs.on_connection_changed_callback then
          [Effect.lifecycle (Server.generate_uuid ev.info) ConnectionState.Connecting]
        else []) ++
        [Effect.connectRequest (Server.generate_uuid ev.info)
          (cbs.on_connect_requested_callback (Server.generate_uuid ev.info))] ++
        (if cbs.on_connect_requested_callback (Server.generate_uuid ev.info) then
            [Effect.acceptConn ev.connection]
          else
            [Effect.closeConn ev.connection 0 "You are not allowed to connect" false]) ∧
    ((Server.process_connection_events ev socket cbs reg).effects.filter
        Effect.isConnectRequest).length = 1 ∧
    (cbs.on_connect_requested_callback (Server.generate_uuid ev.info) = true →
      (Server.process_connection_events ev socket cbs reg).effects.filter
          Effect.isAccept = [Effect.acceptConn ev.connection] ∧
      (Server.process_connection_events ev socket cbs reg).effects.filter
          Effect.isClose = []) ∧
    (cbs.on_connect_requested_callback (Server.generate_uuid ev.info) = false →
      (Server.process_connection_events ev socket cbs reg).effects.filter
          Effect.isClose =
        [Effect.closeConn ev.connection 0 "You are not allowed to connect" false] ∧
      (Server.process_connection_events ev socket cbs reg).effects.filter
          Effect.isAccept = [] ∧
      BiHashMap.contains_left
          (Server.process_connection_events ev socket cbs reg).registry
          (Server.generate_uuid ev.info) =
        BiHashMap.contains_left reg (Server.generate_uuid ev.info)) := by
  have hb := pce_connect_branch ev socket cbs reg ho hn
  rw [hb]
  cases hcb : cbs.on_connection_changed_callback <;>
    cases hans : cbs.on_connect_requested_callback (Server.generate_uuid ev.info) <;>
      simp [hcb, hans, Effect.isConnectRequest, Effect.isAccept, Effect.isClose,
        List.filter]

/-- Witness for C3 (amended): the rejecting fixture policy on an empty
registry. -/
theorem connect_request_branch_spec_witness :
    fixEvConnect.old_state =
      ESteamNetworkingConnectionState.k_ESteamNetworkingConnectionState_None ∧
    fixEvConnect.info.state =
      ESteamNetworkingConnectionState.k_ESteamNetworkingConnectionState_Connecting ∧
    ((Server.process_connection_events fixEvConnect fixSocket fixCallbacksReject
        ([] : BiHashMap Uuid GnsConnection)).registry = [] ∧
      (Server.process_connection_events fixEvConnect fixSocket fixCallbacksReject
        ([] : BiHashMap Uuid GnsConnection)).effects =
        (if fixCallbacksReject.on_connection_changed_callback then
            [Effect.lifecycle (Server.generate_uuid fixEvConnect.info)
              ConnectionState.Connecting]
          else []) ++
          [Effect.connectRequest (Server.generate_uuid fixEvConnect.info)
            (fixCallbacksReject.on_connect_requested_callback
              (Server.generate_uuid fixEvConnect.info))] ++
          (if fixCallbacksReject.on_connect_requested_callback
              (Server.generate_uuid fixEvConnect.info) then
              [Effect.acceptConn fixEvConnect.connection]
            else
              [Effect.closeConn fixEvConnect.connection 0
                "You are not allowed to connect" false]) ∧
      ((Server.process_connection_events fixEvConnect fixSocket fixCallbacksReject
          ([] : BiHashMap Uuid GnsConnection)).effects.filter
          Effect.isConnectRequest).length = 1 ∧
      (fixCallbacksReject.on_connect_requested_callback
          (Server.generate_uuid fixEvConnect.info) = true →
        (Server.process_connection_events fixEvConnect fixSocket fixCallbacksReject
            ([] : BiHashMap Uuid GnsConnection)).effects.filter
            Effect.isAccept = [Effect.acceptConn fixEvConnect.connection] ∧
        (Server.process_connection_events fixEvConnect fixSocket fixCallbacksReject
            ([] : BiHashMap Uuid GnsConnection)).effects.filter
            Effect.isClose = []) ∧
      (fixCallbacksReject.on_connect_requested_callback
          (Server.generate_uuid fixEvConnect.info) = false →
        (Server.process_connection_events fixEvConnect fixSocket fixCallbacksReject
            ([] : BiHashMap Uuid GnsConnection)).effects.filter
            Effect.isClose =
          [Effect.closeConn fixEvConnect.connection 0
            "You are not allowed to connect" false] ∧
        (Server.process_connection_events fixEvConnect fixSocket fixCallbacksReject
            ([] : BiHashMap Uuid GnsConnection)).effects.filter
            Effect.isAccept = [] ∧
        BiHashMap.contains_left
            (Server.process_connection_events fixEvConnect fixSocket fixCallbacksReject
              ([] : BiHashMap Uuid GnsConnection)).registry
            (Server.generate_uuid fixEvConnect.info) =
          BiHashMap.contains_left ([] : BiHashMap Uuid GnsConnection)
            (Server.generate_uuid fixEvConnect.info))) :=
  ⟨rfl, rfl,
   connect_request_branch_spec fixEvConnect fixSocket fixCallbacksReject [] rfl rfl⟩

/-- Counterexample to C5 as stated: the registry already holds exactly the
pair installed by a fully processed `(Connecting, Connected)` transition;
replaying the same event leaves the registry unchanged but fires the
`Connected` lifecycle callback again — an additional callback invocation. -/
theorem replay_fires_callback_cex :
    (Server.process_connection_events fixEvConnected fixSocket fixCallbacks
        [(fixUuid, 9)]).registry = [(fixUuid, 9)] ∧
    (Server.process_connection_events fixEvConnected fixSocket fixCallbacks
        [(fixUuid, 9)]).effects =
      [Effect.lifecycle fixUuid ConnectionState.Connected] ∧
    (Server.process_connection_events fixEvConnected fixSocket fixCallbacks
        [(fixUuid, 9)]).effects ≠ [] := by
  refine ⟨by decide, by decide, by decide⟩

/-- C5 (amended): replaying a documented transition after its effects have
been applied leaves the registry unchanged as a mapping, but the code does
not suppress repeat callbacks: a replayed `(Connecting, Connected)` or
disconnect event fires its lifecycle callback again (iff one is registered),
and a replayed `(None, Connecting)` event re-runs its whole branch — with
effects independent of the registry.  Only repeats of undocumented pairs are
genuine no-ops (no mutation, no callback). -/
theorem replay_transition_spec (socket : GnsSocket) (cbs : ServerCallbacks)
    (ev : GnsConnectionEvent) (reg : BiHashMap Uuid GnsConnection) :
    (ev.old_state =
        ESteamNetworkingConnectionState.k_ESteamNetworkingConnectionState_Connecting →
      ev.info.state =
        ESteamNetworkingConnectionState.k_ESteamNetworkingConnectionState_Connected →
      BiHashMap.wf reg → (Server.generate_uuid ev.info, ev.connection) ∈ reg →
      (Server.process_connection_events ev socket cbs reg).result = Except.ok () ∧
      (∀ x, BiHashMap.get_by_left
          (Server.process_connection_events ev socket cbs reg).registry x =
        BiHashMap.get_by_left reg x) ∧
      (∀ y, BiHashMap.get_by_right
          (Server.process_connection_events ev socket cbs reg).registry y =
        BiHashMap.get_by_right reg y) ∧
      (Server.process_connection_events ev socket cbs reg).effects =
        (if cbs.on_connection_changed_callback then
          [Effect.lifecycle (Server.generate_uuid ev.info) ConnectionState.Connected]
         else [])) ∧
    (is_disconnect_transition ev.old_state ev.info.state = true →
      BiHashMap.contains_left reg (Server.generate_uuid ev.info) = false →
      Server.process_connection_events ev socket cbs reg =
        ⟨Except.ok (), reg,
         if cbs.on_connection_changed_callback then
           [Effect.lifecycle (Server.generate_uuid ev.info) ConnectionState.Disconnected]
         else []⟩) ∧
    (matched_transition ev.old_state ev.info.state = false →
      Server.process_connection_events ev socket cbs reg = ⟨Except.ok (), reg, []⟩) ∧
    (ev.old_state =
        ESteamNetworkingConnectionState.k_ESteamNetworkingConnectionState_None →
      ev.info.state =
        ESteamNetworkingConnectionState.k_ESteamNetworkingConnectionState_Connecting →
      (Server.process_connection_events ev socket cbs reg).registry = reg ∧
      ∀ reg2, (Server.process_connection_events ev socket cbs reg).effects =
        (Server.process_connection_events ev socket cbs reg2).effects) := by
  refine ⟨?_, ?_, ?_, ?_⟩
  · intro ho hn hwf hmem
    have hb := pce_connected_branch ev socket cbs reg ho hn
    rw [hb]
    exact ⟨rfl,
      BiHashMap.get_by_left_insert_of_mem hwf hmem,
      BiHashMap.get_by_right_insert_of_mem hwf hmem,
      rfl⟩
  · intro h hcl
    have hb := pce_disconnect_branch ev socket cbs reg h
    rw [hb, hcl]
    simp
  · exact pce_catch_all ev socket cbs reg
  · intro ho hn
    have hb := pce_connect_branch ev socket cbs reg ho hn
    constructor
    · rw [hb]
    · intro reg2
      rw [hb, pce_connect_branch ev socket cbs reg2 ho hn]

/-- Witness for C5 (amended), replaying `(Connecting, Connected)` on the
registry that already holds exactly the processed pair. -/
theorem replay_transition_spec_witness :
    fixEvConnected.old_state =
      ESteamNetworkingConnectionState.k_ESteamNetworkingConnectionState_Connecting ∧
    fixEvConnected.info.state =
      ESteamNetworkingConnectionState.k_ESteamNetworkingConnectionState_Connected ∧
    BiHashMap.wf [(fixUuid, (9 : GnsConnection))] ∧
    (Server.generate_uuid fixEvConnected.info, fixEvConnected.connection) ∈
      [(fixUuid, (9 : GnsConnection))] ∧
    ((Server.process_connection_events fixEvConnected fixSocket fixCallbacks
        [(fixUuid, 9)]).result = Except.ok () ∧
      (∀ x, BiHashMap.get_by_left
          (Server.process_connection_events fixEvConnected fixSocket fixCallbacks
            [(fixUuid, 9)]).registry x =
        BiHashMap.get_by_left [(fixUuid, (9 : GnsConnection))] x) ∧
      (∀ y, BiHashMap.get_by_right
          (Server.process_connection_events fixEvConnected fixSocket fixCallbacks
            [(fixUuid, 9)]).registry y =
        BiHashMap.get_by_right [(fixUuid, (9 : GnsConnection))] y) ∧
      (Server.process_connection_events fixEvConnected fixSocket fixCallbacks
          [(fixUuid, 9)]).effects =
        (if fixCallbacks.on_connection_changed_callback then
          [Effect.lifecycle (Server.generate_uuid fixEvConnected.info)
            ConnectionState.Connected]
         else [])) :=
  ⟨rfl, rfl, by simp [BiHashMap.wf], by decide,
   (replay_transition_spec fixSocket fixCallbacks fixEvConnected
     [(fixUuid, 9)]).1 rfl rfl (by simp [BiHashMap.wf]) (by decide)⟩

end Omgpp
